import Mathlib

/-!
Verification of the linkytic TIC serial decoder (`src/__init__.py`).

The Python class `AsyncSerialReader` is embedded as a pure state record
`AsyncSerialReader` together with pure functions for each method:
`parse_line`, `validate_checksum`, `stop_serial_read`, `reset_state`
(for `_reset_state`), `is_connected` and `get_values`.  Bytes objects are
modelled as `List Nat` (one entry per byte), Python `dict` as an
association list, and a raised exception as an error value.  An exception
that the code does not catch is modelled by the `LineOutcome.uncaught`
constructor and, at the level of the `read_serial` loop, by the
`LoopStatus.crashed` loop status.

The module `const.py` is not part of the sources; the handful of protocol
constants it provides are modelled from the spec and are marked as such.
-/

namespace Linkytic

/-- Modelled from the spec: the field separator byte of the standard mode
(a fixed protocol constant from the missing `const.py`); the horizontal
tab byte.  No claim below depends on the particular value. -/
def MODE_STANDARD_FIELD_SEPARATOR : Nat := 9

/-- Modelled from the spec: the field separator byte of the historic mode
(a fixed protocol constant from the missing `const.py`); the space byte,
which is also a possible checksum byte, producing the documented
four-field edge case.  No claim below depends on the particular value. -/
def MODE_HISTORIC_FIELD_SEPARATOR : Nat := 32

/-- Modelled from the spec: the trailing line terminator bytes stripped
before parsing (from the missing `const.py`). -/
def LINE_END : List Nat := [13, 10]

/-- Modelled from the spec: the trailing frame terminator bytes stripped
before parsing (from the missing `const.py`). -/
def FRAME_END : List Nat := [13, 10, 3, 2]

/-- Python `bytes.split(sep)` for a single-byte separator: split into the
chunks between occurrences of `sep`, keeping empty chunks.  The result is
always non-empty. -/
def split_on_byte (sep : Nat) : List Nat → List (List Nat)
  | [] => [[]]
  | b :: rest =>
    match split_on_byte sep rest with
    | [] => [[]]
    | f :: fs => if b = sep then [] :: f :: fs else (b :: f) :: fs

/-- Python `bytes.rstrip(strip_set)`: drop trailing bytes that belong to
the set `strip_set`. -/
def rstrip (strip_set : List Nat) (l : List Nat) : List Nat :=
  (l.reverse.dropWhile (fun b => strip_set.contains b)).reverse

/-- The line cleanup performed by `parse_line`:
`line.rstrip(LINE_END).rstrip(FRAME_END)`. -/
def cleanup_line (line : List Nat) : List Nat :=
  rstrip FRAME_END (rstrip LINE_END line)

/-- Python `bytes.decode("ascii")`: succeeds (returning the same byte
sequence, read as text) exactly when every byte is below 128, and raises
`UnicodeDecodeError` (here: `none`) otherwise. -/
def decode_ascii (l : List Nat) : Option (List Nat) :=
  if l.all (fun b => decide (b < 128)) then some l else none

/-- A byte sequence containing at least one non-ASCII byte. -/
def has_non_ascii (l : List Nat) : Prop :=
  ∃ b ∈ l, 128 ≤ b

/-- The payload stored in the value table for one tag:
`{"value": ..., "timestamp": ...}`. -/
structure Payload where
  value : List Nat
  timestamp : Option (List Nat)
  deriving DecidableEq

/-- Python dict assignment `values[tag] = p` on the association-list
model of `self._values`. -/
def upsert (tag : List Nat) (p : Payload) : List (List Nat × Payload) → List (List Nat × Payload)
  | [] => [(tag, p)]
  | (k, v) :: rest => if k = tag then (tag, p) :: rest else (k, v) :: upsert tag p rest

/-- Python dict lookup `values[tag]` on the association-list model,
returning `none` where Python raises `KeyError`. -/
def lookup_value (tag : List Nat) : List (List Nat × Payload) → Option Payload
  | [] => none
  | (k, v) :: rest => if k = tag then some v else lookup_value tag rest

/-- Python exceptions that `parse_line` never catches. -/
inductive PyErr where
  | attributeError
  | unicodeDecodeError
  | typeError
  deriving DecidableEq

/-- The decoded diagnostic record built by `InvalidChecksum.__init__`. -/
structure InvalidChecksumData where
  tag : List Nat
  timestamp : List Nat
  value : List Nat
  s1 : Nat
  s1_truncated : Nat
  computed : Nat
  expected : List Nat
  deriving DecidableEq

/-- `InvalidChecksum.__init__`: decodes `tag`, then `timestamp`, then
`value` as ASCII.  When `timestamp` is `None` the attribute access
`timestamp.decode` raises `AttributeError`; a non-ASCII byte raises
`UnicodeDecodeError`.  Either exception escapes the constructor instead
of producing the exception object. -/
def invalid_checksum_mk (tag : List Nat) (timestamp : Option (List Nat)) (value : List Nat)
    (s1 s1_truncated computed : Nat) (expected : List Nat) :
    Except PyErr InvalidChecksumData :=
  match decode_ascii tag with
  | none => Except.error PyErr.unicodeDecodeError
  | some tagD =>
    match timestamp with
    | none => Except.error PyErr.attributeError
    | some t =>
      match decode_ascii t with
      | none => Except.error PyErr.unicodeDecodeError
      | some tsD =>
        match decode_ascii value with
        | none => Except.error PyErr.unicodeDecodeError
        | some vD => Except.ok ⟨tagD, tsD, vD, s1, s1_truncated, computed, expected⟩

/-- Outcome of `validate_checksum`: either the properly constructed
`InvalidChecksum` exception, or a Python exception raised on the way. -/
inductive VErr where
  | invalidChecksum (d : InvalidChecksumData)
  | py (e : PyErr)
  deriving DecidableEq

/-- The frame rebuilt by `validate_checksum` before summing:
standard mode appends a separator after every field (timestamp included
when present); historic mode is `tag + SEP + value` with no trailing
separator. -/
def checksum_frame (std_mode : Bool) (tag : List Nat) (timestamp : Option (List Nat))
    (value : List Nat) : List Nat :=
  if std_mode then
    match timestamp with
    | none => tag ++ [ MODE_STANDARD_FIELD_SEPARATOR] ++ value ++ [ MODE_STANDARD_FIELD_SEPARATOR]
    | some t =>
      tag ++ [ MODE_STANDARD_FIELD_SEPARATOR] ++ t ++ [ MODE_STANDARD_FIELD_SEPARATOR]
        ++ value ++ [ MODE_STANDARD_FIELD_SEPARATOR]
  else
    tag ++ [ MODE_HISTORIC_FIELD_SEPARATOR] ++ value

/-- `AsyncSerialReader.validate_checksum`: rebuild the frame, sum its
bytes into `s1`, mask to the low six bits, add `0x20`, and compare with
`ord(checksum)`.  `ord` on a bytes object whose length is not one raises
`TypeError`; on mismatch the code raises `InvalidChecksum`, whose
constructor may itself raise (see `invalid_checksum_mk`). -/
def validate_checksum (std_mode : Bool) (tag : List Nat) (timestamp : Option (List Nat))
    (value : List Nat) (checksum : List Nat) : Except VErr Unit :=
  match checksum with
  | [c] =>
    let s1 := (checksum_frame std_mode tag timestamp value).sum
    let truncated := s1 &&& 0x3F
    let computed_checksum := truncated + 0x20
    if computed_checksum ≠ c then
      match invalid_checksum_mk tag timestamp value s1 truncated computed_checksum checksum with
      | Except.ok d => Except.error (VErr.invalidChecksum d)
      | Except.error e => Except.error (VErr.py e)
    else
      Except.ok ()
  | _ => Except.error (VErr.py PyErr.typeError)

/-- Field extraction of the standard-mode branch of `parse_line`:
four fields give (tag, timestamp, value, checksum), three fields give
(tag, value, checksum) with no timestamp, anything else is the
field-count error (`none`). -/
def extract_std : List (List Nat) → Option (List Nat × Option (List Nat) × List Nat × List Nat)
  | [t, ts, v, c] => some (t, some ts, v, c)
  | [t, v, c] => some (t, none, v, c)
  | _ => none

/-- Field extraction of the historic-mode branch of `parse_line`:
three fields give (tag, value, checksum); four fields arise when the
checksum byte equals the separator, and the checksum is then taken to be
the separator constant itself; anything else is the field-count error. -/
def extract_hist : List (List Nat) → Option (List Nat × Option (List Nat) × List Nat × List Nat)
  | [t, v, c] => some (t, none, v, c)
  | [t, v, _, _] => some (t, none, v, [ MODE_HISTORIC_FIELD_SEPARATOR])
  | _ => none

/-- The mode dispatch of `parse_line`: split the cleaned line on the
mode's separator and extract the fields. -/
def extract_fields (std_mode : Bool) (l : List Nat) :
    Option (List Nat × Option (List Nat) × List Nat × List Nat) :=
  if std_mode then extract_std (split_on_byte MODE_STANDARD_FIELD_SEPARATOR l)
  else extract_hist (split_on_byte MODE_HISTORIC_FIELD_SEPARATOR l)

/-- The timestamp transformation of `parse_line`:
`timestamp.decode("ascii") if timestamp else timestamp`.
`None` and the empty bytes are falsy and pass through undecoded; a
non-empty timestamp is ASCII-decoded and may raise. -/
def decode_timestamp_field (timestamp : Option (List Nat)) : Except PyErr (Option (List Nat)) :=
  match timestamp with
  | none => Except.ok none
  | some [] => Except.ok (some [])
  | some t =>
    match decode_ascii t with
    | none => Except.error PyErr.unicodeDecodeError
    | some td => Except.ok (some td)

/-- What one call to `parse_line` did with the line. -/
inductive LineOutcome where
  | skippedFirst
  | fieldCountError
  | checksumLoggedDropped (d : InvalidChecksumData)
  | stored (tag : List Nat) (value : List Nat) (timestamp : Option (List Nat))
  | uncaught (e : PyErr)
  deriving DecidableEq

/-- The mutable state of the Python `AsyncSerialReader` object:
`self._std_mode`, presence of `self._reader` and `self._writer`,
`self._first_line` and `self._values`. -/
structure AsyncSerialReader where
  std_mode : Bool
  reader : Bool
  writer : Bool
  first_line : Bool
  values : List (List Nat × Payload)
  deriving DecidableEq

/-- `AsyncSerialReader.__init__`: no connection yet, skip-first-line flag
armed, empty value table. -/
def init_reader (std_mode : Bool) : AsyncSerialReader :=
  ⟨std_mode, false, false, true, []⟩

/-- `AsyncSerialReader._reset_state`: nullify reader and writer, re-arm
the skip-first-line flag and clear the value table (the 5 s sleep is a
timing detail outside the state model). -/
def reset_state (s : AsyncSerialReader) : AsyncSerialReader :=
  { s with reader := false, writer := false, first_line := true, values := [] }

/-- `AsyncSerialReader.stop_serial_read`: only when a writer is present
is it closed and nulled; otherwise the call does nothing.  The reader is
deliberately left in place as the stop flag for `read_serial`. -/
def stop_serial_read (s : AsyncSerialReader) : AsyncSerialReader :=
  if s.writer then { s with writer := false } else s

/-- `AsyncSerialReader.is_connected`: truthiness of
`self._reader and self._writer`. -/
def is_connected (s : AsyncSerialReader) : Bool :=
  s.reader && s.writer

/-- In `get_values` the guard reads `if not self.is_connected:` without
calling the method: `self.is_connected` is the bound-method object, which
is always truthy, so the guard can never fire. -/
def is_connected_attr_truthy : Bool := true

/-- `AsyncSerialReader.get_values`: the (ineffective) connection guard,
then a dict lookup returning `(value, timestamp)` on a hit and
`(None, None)` on `KeyError`. -/
def get_values (s : AsyncSerialReader) (tag : List Nat) :
    Option (List Nat) × Option (List Nat) :=
  if is_connected_attr_truthy = false then (none, none)
  else
    match lookup_value tag s.values with
    | some payload => (some payload.value, payload.timestamp)
    | none => (none, none)

/-- `AsyncSerialReader.parse_line`: skip the first line after a
(re)connection, clean the line, extract the fields for the mode,
validate the checksum (catching exactly `InvalidChecksum`), ASCII-decode
value, timestamp and tag, and store the payload under the tag. -/
def parse_line (s : AsyncSerialReader) (line : List Nat) :
    AsyncSerialReader × LineOutcome :=
  if s.first_line then ({ s with first_line := false }, LineOutcome.skippedFirst)
  else
    match extract_fields s.std_mode (cleanup_line line) with
    | none => (s, LineOutcome.fieldCountError)
    | some (tag, timestamp, field_value, checksum) =>
      match validate_checksum s.std_mode tag timestamp field_value checksum with
      | Except.error (VErr.invalidChecksum d) => (s, LineOutcome.checksumLoggedDropped d)
      | Except.error (VErr.py e) => (s, LineOutcome.uncaught e)
      | Except.ok _ =>
        match decode_ascii field_value with
        | none => (s, LineOutcome.uncaught PyErr.unicodeDecodeError)
        | some v =>
          match decode_timestamp_field timestamp with
          | Except.error e => (s, LineOutcome.uncaught e)
          | Except.ok td =>
            match decode_ascii tag with
            | none => (s, LineOutcome.uncaught PyErr.unicodeDecodeError)
            | some tagD =>
              ({ s with values := upsert tagD ⟨v, td⟩ s.values },
                LineOutcome.stored tagD v td)

/-- The events the environment can feed to the `read_serial` loop: the
result of an open attempt, the result of a read, and the external stop
callback. -/
inductive Ev where
  | openOk
  | openFail
  | readLine (line : List Nat)
  | readErr
  | stop
  deriving DecidableEq

/-- Whether the `read_serial` loop is still running after an event, has
exited through its break, or has died on an uncaught exception. -/
inductive LoopStatus where
  | running
  | exited
  | crashed
  deriving DecidableEq

/-- One iteration of the `read_serial` loop (with the asynchronous stop
callback folded in as an event).  When no reader is present the loop is
at `open_serial`, so only open events apply; with a reader but no writer
the loop breaks; otherwise a read result is processed, a read error
calling `_reset_state`, and an exception escaping `parse_line` killing
the loop. -/
def read_serial_step (s : AsyncSerialReader) (e : Ev) : AsyncSerialReader × LoopStatus :=
  match e with
  | Ev.stop => (stop_serial_read s, LoopStatus.running)
  | Ev.openOk =>
    if s.reader = false then ({ s with reader := true, writer := true }, LoopStatus.running)
    else (s, LoopStatus.running)
  | Ev.openFail =>
    if s.reader = false then (reset_state s, LoopStatus.running)
    else (s, LoopStatus.running)
  | Ev.readLine line =>
    if s.reader = false then (s, LoopStatus.running)
    else if s.writer = false then (s, LoopStatus.exited)
    else
      match parse_line s line with
      | (s2, LineOutcome.uncaught _) => (s2, LoopStatus.crashed)
      | (s2, _) => (s2, LoopStatus.running)
  | Ev.readErr =>
    if s.reader = false then (s, LoopStatus.running)
    else if s.writer = false then (s, LoopStatus.exited)
    else (reset_state s, LoopStatus.running)

/-- Run a sequence of events through the loop, keeping the state. -/
def run_events (s : AsyncSerialReader) (evs : List Ev) : AsyncSerialReader :=
  evs.foldl (fun t e => (read_serial_step t e).1) s

/-- The byte sequence the spec says is checksummed, written from the
spec's words: standard mode with timestamp is
tag + SEP + timestamp + SEP + value + SEP, standard mode without
timestamp is tag + SEP + value + SEP, historic mode is tag + SEP + value
with no trailing separator. -/
def spec_checksum_frame (std_mode : Bool) (tag : List Nat) (timestamp : Option (List Nat))
    (value : List Nat) : List Nat :=
  match std_mode, timestamp with
  | true, some t =>
    tag ++ [ MODE_STANDARD_FIELD_SEPARATOR] ++ t ++ [ MODE_STANDARD_FIELD_SEPARATOR]
      ++ value ++ [ MODE_STANDARD_FIELD_SEPARATOR]
  | true, none => tag ++ [ MODE_STANDARD_FIELD_SEPARATOR] ++ value ++ [ MODE_STANDARD_FIELD_SEPARATOR]
  | false, _ => tag ++ [ MODE_HISTORIC_FIELD_SEPARATOR] ++ value

/-- The spec's Connected session state, written from the spec's words: a
connection is open and the first line after the (re)connection has
already been discarded. -/
def spec_connected (s : AsyncSerialReader) : Bool :=
  s.reader && s.writer && !s.first_line

/-- The checksum byte of a frame, as computed by the formula of
`validate_checksum`: the byte sum masked to six bits, plus `0x20`. -/
def compute_checksum (std_mode : Bool) (tag : List Nat) (timestamp : Option (List Nat))
    (value : List Nat) : Nat :=
  ((checksum_frame std_mode tag timestamp value).sum &&& 0x3F) + 0x20

/-- The state left behind by `_reset_state`: no reader, no writer, empty
value table (and, though not part of this predicate, a re-armed
skip-first-line flag). -/
def disconnected_inv (s : AsyncSerialReader) : Prop :=
  s.reader = false ∧ s.writer = false ∧ s.values = []

/-- The frame rebuilt by the code is exactly the frame the spec describes. -/
theorem checksum_frame_eq_spec (std_mode : Bool) (tag : List Nat)
    (timestamp : Option (List Nat)) (value : List Nat) :
    checksum_frame std_mode tag timestamp value
      = spec_checksum_frame std_mode tag timestamp value := by
  cases std_mode <;> cases timestamp <;> rfl

/-- Validation of a single-byte checksum succeeds exactly when the
computed byte matches it. -/
theorem validate_ok_iff (std_mode : Bool) (tag : List Nat) (timestamp : Option (List Nat))
    (value : List Nat) (c : Nat) :
    validate_checksum std_mode tag timestamp value [c] = Except.ok () ↔
      ((checksum_frame std_mode tag timestamp value).sum &&& 0x3F) + 0x20 = c := by
  unfold validate_checksum
  by_cases h : ((checksum_frame std_mode tag timestamp value).sum &&& 0x3F) + 0x20 = c
  · simp [h]
  · simp only [h, iff_false]
    simp only [ne_eq, h, not_false_eq_true, if_true]
    cases hmk : invalid_checksum_mk tag timestamp value
        ((checksum_frame std_mode tag timestamp value).sum)
        ((checksum_frame std_mode tag timestamp value).sum &&& 0x3F)
        (((checksum_frame std_mode tag timestamp value).sum &&& 0x3F) + 0x20) [c] <;>
      simp

/-- A field list that has neither three nor four entries is rejected by
the standard-mode extraction. -/
theorem extract_std_eq_none (fs : List (List Nat)) (h3 : fs.length ≠ 3)
    (h4 : fs.length ≠ 4) : extract_std fs = none :=
  match fs, h3, h4 with
  | [], _, _ => rfl
  | [_], _, _ => rfl
  | [_, _], _, _ => rfl
  | [_, _, _], h3, _ => absurd rfl h3
  | [_, _, _, _], _, h4 => absurd rfl h4
  | _ :: _ :: _ :: _ :: _ :: _, _, _ => rfl

/-- A field list that has neither three nor four entries is rejected by
the historic-mode extraction. -/
theorem extract_hist_eq_none (fs : List (List Nat)) (h3 : fs.length ≠ 3)
    (h4 : fs.length ≠ 4) : extract_hist fs = none :=
  match fs, h3, h4 with
  | [], _, _ => rfl
  | [_], _, _ => rfl
  | [_, _], _, _ => rfl
  | [_, _, _], h3, _ => absurd rfl h3
  | [_, _, _, _], _, h4 => absurd rfl h4
  | _ :: _ :: _ :: _ :: _ :: _, _, _ => rfl

/-- Historic-mode extraction never produces a timestamp. -/
theorem extract_hist_timestamp_none (fs : List (List Nat)) (t v c : List Nat)
    (ts : Option (List Nat)) (h : extract_hist fs = some (t, ts, v, c)) : ts = none := by
  match fs, h with
  | [], h => simp [extract_hist] at h
  | [_], h => simp [extract_hist] at h
  | [_, _], h => simp [extract_hist] at h
  | [a, b, c0], h =>
    simp only [extract_hist, Option.some.injEq, Prod.mk.injEq] at h
    exact h.2.1.symm
  | [a, b, x, y], h =>
    simp only [extract_hist, Option.some.injEq, Prod.mk.injEq] at h
    exact h.2.1.symm
  | _ :: _ :: _ :: _ :: _ :: _, h => simp [extract_hist] at h

/-- C1: for every line accepted by field extraction, `validate_checksum`
reconstructs exactly the checksummed frame the spec describes (standard
mode with timestamp: tag + SEP + timestamp + SEP + value + SEP; standard
mode without timestamp: tag + SEP + value + SEP; historic mode:
tag + SEP + value with no trailing separator), sums all byte values of
that frame into s1, and judges the line valid if and only if
(s1 &&& 0x3F) + 0x20 equals the numeric value of the checksum byte. -/
theorem C1_checksum_validation_rule (std_mode : Bool) (tag : List Nat)
    (timestamp : Option (List Nat)) (value : List Nat) (c : Nat) :
    checksum_frame std_mode tag timestamp value
        = spec_checksum_frame std_mode tag timestamp value ∧
    (validate_checksum std_mode tag timestamp value [c] = Except.ok () ↔
      ((spec_checksum_frame std_mode tag timestamp value).sum &&& 0x3F) + 0x20 = c) :=
  ⟨checksum_frame_eq_spec std_mode tag timestamp value, by
    rw [← checksum_frame_eq_spec std_mode tag timestamp value]
    exact validate_ok_iff std_mode tag timestamp value c⟩

/-- C9: checksum round-trip; computing the checksum byte of the
reconstructed frame with the code's own formula and then validating the
same fields against that byte always succeeds, in both modes, with or
without a timestamp. -/
theorem C9_checksum_round_trip (std_mode : Bool) (tag : List Nat)
    (timestamp : Option (List Nat)) (value : List Nat) :
    validate_checksum std_mode tag timestamp value
      [compute_checksum std_mode tag timestamp value] = Except.ok () :=
  (validate_ok_iff std_mode tag timestamp value
    (compute_checksum std_mode tag timestamp value)).mpr rfl

/-- C2: in standard mode, for a non-first line, the cleaned line is split
on the standard field separator; exactly four fields give
(tag, timestamp, value, checksum), exactly three give
(tag, value, checksum) with no timestamp, and any other field count makes
`parse_line` drop the line with a field-count error and leave the state,
including the value table, unchanged. -/
theorem C2_standard_field_extraction (s : AsyncSerialReader) (line : List Nat)
    (hstd : s.std_mode = true) (hfl : s.first_line = false) :
    (∀ t ts v c,
      split_on_byte MODE_STANDARD_FIELD_SEPARATOR (cleanup_line line) = [t, ts, v, c] →
      extract_fields s.std_mode (cleanup_line line) = some (t, some ts, v, c)) ∧
    (∀ t v c,
      split_on_byte MODE_STANDARD_FIELD_SEPARATOR (cleanup_line line) = [t, v, c] →
      extract_fields s.std_mode (cleanup_line line) = some (t, none, v, c)) ∧
    ((split_on_byte MODE_STANDARD_FIELD_SEPARATOR (cleanup_line line)).length ≠ 3 →
      (split_on_byte MODE_STANDARD_FIELD_SEPARATOR (cleanup_line line)).length ≠ 4 →
      parse_line s line = (s, LineOutcome.fieldCountError)) := by
  refine ⟨?_, ?_, ?_⟩
  · intro t ts v c h
    simp [extract_fields, hstd, h, extract_std]
  · intro t v c h
    simp [extract_fields, hstd, h, extract_std]
  · intro h3 h4
    have hE : extract_fields s.std_mode (cleanup_line line) = none := by
      simp only [extract_fields, hstd, if_true]
      exact extract_std_eq_none _ h3 h4
    simp [parse_line, hfl, hE]

/-- C3: in historic mode, for a non-first line, splitting the cleaned
line on the historic separator into exactly three fields gives
(tag, value, checksum); exactly four fields give (tag, value) with the
checksum taken to be the separator byte itself, the two trailing empty
fields causing no failure; any other count makes `parse_line` drop the
line with a field-count error and an unchanged state; and a stored
historic-mode decode never carries a timestamp. -/
theorem C3_historic_field_extraction (s : AsyncSerialReader) (line : List Nat)
    (hstd : s.std_mode = false) (hfl : s.first_line = false) :
    (∀ t v c,
      split_on_byte MODE_HISTORIC_FIELD_SEPARATOR (cleanup_line line) = [t, v, c] →
      extract_fields s.std_mode (cleanup_line line) = some (t, none, v, c)) ∧
    (∀ t v x y,
      split_on_byte MODE_HISTORIC_FIELD_SEPARATOR (cleanup_line line) = [t, v, x, y] →
      extract_fields s.std_mode (cleanup_line line)
        = some (t, none, v, [ MODE_HISTORIC_FIELD_SEPARATOR])) ∧
    ((split_on_byte MODE_HISTORIC_FIELD_SEPARATOR (cleanup_line line)).length ≠ 3 →
      (split_on_byte MODE_HISTORIC_FIELD_SEPARATOR (cleanup_line line)).length ≠ 4 →
      parse_line s line = (s, LineOutcome.fieldCountError)) ∧
    (∀ tagD v td, (parse_line s line).2 = LineOutcome.stored tagD v td → td = none) := by
  refine ⟨?_, ?_, ?_, ?_⟩
  · intro t v c h
    simp [extract_fields, hstd, h, extract_hist]
  · intro t v x y h
    simp [extract_fields, hstd, h, extract_hist]
  · intro h3 h4
    have hE : extract_fields s.std_mode (cleanup_line line) = none := by
      simp only [extract_fields, hstd, Bool.false_eq_true, if_false]
      exact extract_hist_eq_none _ h3 h4
    simp [parse_line, hfl, hE]
  · intro tagD v td h
    simp only [parse_line, hfl, Bool.false_eq_true, if_false] at h
    cases hE : extract_fields s.std_mode (cleanup_line line) with
    | none => simp only [hE] at h; exact absurd h (by simp)
    | some quad =>
      obtain ⟨tg, ts, fv, ck⟩ := quad
      have hts : ts = none := by
        apply extract_hist_timestamp_none (split_on_byte MODE_HISTORIC_FIELD_SEPARATOR
          (cleanup_line line)) tg fv ck ts
        have h2 := hE
        simp only [extract_fields, hstd, Bool.false_eq_true, if_false] at h2
        exact h2
      subst hts
      simp only [hE] at h
      cases hv : validate_checksum s.std_mode tg none fv ck with
      | error e =>
        cases e <;> simp only [hv] at h <;> simp at h
      | ok u =>
        simp only [hv] at h
        cases hdv : decode_ascii fv with
        | none => simp only [hdv] at h; simp at h
        | some v2 =>
          simp only [hdv, decode_timestamp_field] at h
          cases hdt : decode_ascii tg with
          | none => simp only [hdt] at h; simp at h
          | some tg2 =>
            simp only [hdt] at h
            simp at h
            exact h.2.2.symm

/-- A non-first line is never skipped: the skip outcome occurs only while
the skip-first-line flag is armed. -/
theorem parse_line_not_skipped (t : AsyncSerialReader) (l : List Nat)
    (hfl : t.first_line = false) : (parse_line t l).2 ≠ LineOutcome.skippedFirst := by
  simp only [parse_line, hfl, Bool.false_eq_true, if_false]
  cases hE : extract_fields t.std_mode (cleanup_line l) with
  | none => simp [hE]
  | some quad =>
    obtain ⟨tg, ts, fv, ck⟩ := quad
    simp only [hE]
    cases hv : validate_checksum t.std_mode tg ts fv ck with
    | error e => cases e <;> simp [hv]
    | ok u =>
      simp only [hv]
      cases hdv : decode_ascii fv with
      | none => simp [hdv]
      | some v2 =>
        simp only [hdv]
        cases hdt : decode_timestamp_field ts with
        | error e => simp [hdt]
        | ok td =>
          simp only [hdt]
          cases hdt2 : decode_ascii tg <;> simp [hdt2]

/-- C6: the first line after every (re)connection is discarded without
being parsed or stored (the state is unchanged except for disarming the
flag); `_reset_state` re-arms the flag on every transition into the
disconnected state; a successful open leaves the flag untouched; and
once the flag is disarmed no further line is skipped, so exactly one
line is skipped per connection. -/
theorem C6_first_line_skipped (s : AsyncSerialReader) (line : List Nat)
    (h : s.first_line = true) :
    parse_line s line = ({ s with first_line := false }, LineOutcome.skippedFirst) ∧
    (∀ t : AsyncSerialReader, (reset_state t).first_line = true) ∧
    (∀ t : AsyncSerialReader, ((read_serial_step t Ev.openOk).1).first_line = t.first_line) ∧
    (∀ (t : AsyncSerialReader) (l : List Nat), t.first_line = false →
      (parse_line t l).2 ≠ LineOutcome.skippedFirst) := by
  refine ⟨by simp [parse_line, h], fun t => rfl, ?_, parse_line_not_skipped⟩
  intro t
  by_cases hr : t.reader = false <;> simp [read_serial_step, hr]

/-- One loop iteration on any event other than a successful open keeps a
disconnected state disconnected, with its value table still empty. -/
theorem step_preserves_disconnected (s : AsyncSerialReader) (e : Ev)
    (hne : e ≠ Ev.openOk) (h : disconnected_inv s) :
    disconnected_inv ((read_serial_step s e).1) := by
  obtain ⟨h1, h2, h3⟩ := h
  cases e with
  | stop =>
    simp only [read_serial_step, stop_serial_read, h2, Bool.false_eq_true, if_false]
    exact ⟨h1, h2, h3⟩
  | openOk => exact absurd rfl hne
  | openFail =>
    simp only [read_serial_step, h1, if_true]
    exact ⟨rfl, rfl, rfl⟩
  | readLine l =>
    simp only [read_serial_step, h1, if_true]
    exact ⟨h1, h2, h3⟩
  | readErr =>
    simp only [read_serial_step, h1, if_true]
    exact ⟨h1, h2, h3⟩

/-- Any run of the loop containing no successful open keeps a
disconnected state disconnected, with its value table still empty. -/
theorem run_preserves_disconnected (evs : List Ev) (s : AsyncSerialReader)
    (hno : ∀ e ∈ evs, e ≠ Ev.openOk) (h : disconnected_inv s) :
    disconnected_inv (run_events s evs) := by
  induction evs generalizing s with
  | nil => exact h
  | cons e rest ih =>
    simp only [run_events, List.foldl_cons]
    exact ih ((read_serial_step s e).1)
      (fun x hx => hno x (List.mem_cons_of_mem e hx))
      (step_preserves_disconnected s e (hno e (List.mem_cons_self e rest)) h)

/-- A disconnected state reports itself as not connected. -/
theorem is_connected_false_of_disconnected (t : AsyncSerialReader)
    (h : disconnected_inv t) : is_connected t = false := by
  obtain ⟨h1, _, _⟩ := h
  simp [is_connected, h1]

/-- C7 (amended): after every transport read error and every open failure
(both run `_reset_state`), the value table is empty and `is_connected()`
is false, and both remain so under any further events until the next
successful open; `is_connected()` is the conjunction of reader and writer
presence, so it is already true in the awaiting-first-line phase of a new
connection, not only in the Connected state. -/
theorem C7_reset_clears_until_reconnect (s : AsyncSerialReader) (evs : List Ev)
    (hno : ∀ e ∈ evs, e ≠ Ev.openOk) :
    disconnected_inv (reset_state s) ∧
    is_connected (reset_state s) = false ∧
    (reset_state s).values = [] ∧
    disconnected_inv (run_events (reset_state s) evs) ∧
    is_connected (run_events (reset_state s) evs) = false ∧
    (run_events (reset_state s) evs).values = [] ∧
    (∀ t : AsyncSerialReader, is_connected t = (t.reader && t.writer)) := by
  have h0 : disconnected_inv (reset_state s) := ⟨rfl, rfl, rfl⟩
  have h1 : disconnected_inv (run_events (reset_state s) evs) :=
    run_preserves_disconnected evs (reset_state s) hno h0
  exact ⟨h0, is_connected_false_of_disconnected _ h0, h0.2.2,
    h1, is_connected_false_of_disconnected _ h1, h1.2.2, fun t => rfl⟩

/-- C7 (counterexample): immediately after a successful open, before the
first line has been discarded, `is_connected()` already returns true even
though the session has not reached the spec's Connected state, which
contradicts the claim that it is true only while in Connected state. -/
theorem C7_connected_before_first_line_discarded :
    is_connected ((read_serial_step (reset_state (init_reader true)) Ev.openOk).1) = true ∧
    spec_connected ((read_serial_step (reset_state (init_reader true)) Ev.openOk).1) = false ∧
    ((read_serial_step (reset_state (init_reader true)) Ev.openOk).1).first_line = true :=
  ⟨rfl, rfl, rfl⟩

/-- C8 (code bug): `stop_serial_read` called while disconnected (during
the backoff between reconnect attempts, when the writer is absent) is a
no-op, so the read loop goes on to reopen the connection instead of
exiting: after the stop, a successful open leaves the loop running and
connected. -/
theorem C8_stop_during_backoff_reconnects :
    stop_serial_read (reset_state (init_reader true)) = reset_state (init_reader true) ∧
    (read_serial_step (stop_serial_read (reset_state (init_reader true))) Ev.openOk).2
      = LoopStatus.running ∧
    is_connected ((read_serial_step (stop_serial_read (reset_state (init_reader true)))
      Ev.openOk).1) = true :=
  ⟨rfl, rfl, rfl⟩

/-- C4 (code bug): on the historic-mode line "TAG VAL A" (correct byte
sum 479, computed checksum byte 63, expected byte 65), the checksum
mismatch makes `validate_checksum` raise, but `InvalidChecksum.__init__`
evaluates `timestamp.decode` on `None` and raises `AttributeError`
instead, which the `except InvalidChecksum` handler does not catch: the
exception escapes `parse_line` and kills the read loop. -/
theorem C4_checksum_mismatch_without_timestamp_crashes :
    parse_line ⟨false, true, true, false, []⟩ [84, 65, 71, 32, 86, 65, 76, 32, 65]
      = (⟨false, true, true, false, []⟩, LineOutcome.uncaught PyErr.attributeError) ∧
    (read_serial_step ⟨false, true, true, false, []⟩
      (Ev.readLine [84, 65, 71, 32, 86, 65, 76, 32, 65])).2 = LoopStatus.crashed :=
  ⟨rfl, rfl⟩

/-- C5 (counterexample): the standard-mode line "T" TAB 0xFF TAB "E"
passes field extraction and checksum validation (byte sum 357, checksum
byte 69), but the non-ASCII value byte makes `field_value.decode` raise
an uncaught `UnicodeDecodeError`: the line is not merely logged and
dropped, the exception kills the read loop. -/
theorem C5_nonascii_value_crashes_session :
    validate_checksum true [84] none [255] [69] = Except.ok () ∧
    parse_line ⟨true, true, true, false, []⟩ [84, 9, 255, 9, 69]
      = (⟨true, true, true, false, []⟩, LineOutcome.uncaught PyErr.unicodeDecodeError) ∧
    (read_serial_step ⟨true, true, true, false, []⟩ (Ev.readLine [84, 9, 255, 9, 69])).2
      = LoopStatus.crashed :=
  ⟨rfl, rfl, rfl⟩

/-- A byte sequence is rejected by the ASCII decoder exactly when it
contains a non-ASCII byte. -/
theorem decode_ascii_eq_none_iff (l : List Nat) :
    decode_ascii l = none ↔ has_non_ascii l := by
  unfold decode_ascii has_non_ascii
  by_cases h : l.all (fun b => decide (b < 128)) = true
  · rw [if_pos h]
    constructor
    · intro hc
      exact absurd hc (by simp)
    · rintro ⟨b, hb, hble⟩
      exfalso
      have hlt := List.all_eq_true.mp h b hb
      simp at hlt
      omega
  · rw [if_neg h]
    constructor
    · intro _
      rw [List.all_eq_true] at h
      push_neg at h
      obtain ⟨b, hb, hnb⟩ := h
      refine ⟨b, hb, ?_⟩
      simp at hnb
      omega
    · intro _
      rfl

/-- The timestamp transformation can only raise a Unicode decode
error. -/
theorem decode_timestamp_field_error (ts : Option (List Nat)) (e : PyErr)
    (h : decode_timestamp_field ts = Except.error e) : e = PyErr.unicodeDecodeError := by
  match ts, h with
  | none, h => exact absurd h (by simp [decode_timestamp_field])
  | some [], h => exact absurd h (by simp [decode_timestamp_field])
  | some (b :: bs), h =>
    simp only [decode_timestamp_field] at h
    cases hd : decode_ascii (b :: bs) with
    | none =>
      simp only [hd] at h
      simp at h
      exact h.symm
    | some x =>
      simp only [hd] at h
      exact absurd h (by simp)

/-- The timestamp transformation cannot succeed on a timestamp holding a
non-ASCII byte. -/
theorem decode_timestamp_field_nonascii (t : List Nat) (hna : has_non_ascii t)
    (td : Option (List Nat)) (h : decode_timestamp_field (some t) = Except.ok td) :
    False := by
  match t, hna, h with
  | [], hna, _ =>
    obtain ⟨b, hb, _⟩ := hna
    cases hb
  | b :: bs, hna, h =>
    have hd : decode_ascii (b :: bs) = none := (decode_ascii_eq_none_iff (b :: bs)).mpr hna
    simp only [decode_timestamp_field, hd] at h
    exact absurd h (by simp)

/-- C5 (amended): for every line that passes field extraction and
checksum validation but whose tag, value, or (non-empty) timestamp
contains a non-ASCII byte, `parse_line` leaves the value table unchanged,
but the decode failure is an uncaught `UnicodeDecodeError`, not a
recoverable logged-and-dropped parse error: it terminates the session. -/
theorem C5_amended_nonascii_is_uncaught (s : AsyncSerialReader) (line : List Nat)
    (hfl : s.first_line = false) (tag fv ck : List Nat) (ts : Option (List Nat))
    (hE : extract_fields s.std_mode (cleanup_line line) = some (tag, ts, fv, ck))
    (hV : validate_checksum s.std_mode tag ts fv ck = Except.ok ())
    (hNA : has_non_ascii tag ∨ has_non_ascii fv ∨ ∃ t, ts = some t ∧ has_non_ascii t) :
    parse_line s line = (s, LineOutcome.uncaught PyErr.unicodeDecodeError) := by
  simp only [parse_line, hfl, Bool.false_eq_true, if_false, hE, hV]
  cases hdv : decode_ascii fv with
  | none => simp [hdv]
  | some v2 =>
    have hfv_ascii : ¬ has_non_ascii fv := by
      intro hna
      rw [(decode_ascii_eq_none_iff fv).mpr hna] at hdv
      exact absurd hdv (by simp)
    cases hdt : decode_timestamp_field ts with
    | error e =>
      have he := decode_timestamp_field_error ts e hdt
      subst he
      simp [hdv, hdt]
    | ok td =>
      have hts_ascii : ¬ ∃ t, ts = some t ∧ has_non_ascii t := by
        rintro ⟨t, rfl, hna⟩
        exact decode_timestamp_field_nonascii t hna td hdt
      have htag : has_non_ascii tag := by
        rcases hNA with h | h | h
        · exact h
        · exact absurd h hfv_ascii
        · exact absurd h hts_ascii
      have hdtag : decode_ascii tag = none := (decode_ascii_eq_none_iff tag).mpr htag
      simp [hdv, hdt, hdtag]

/-- C10: stopping the session does not clear the value table, and because
the connection guard in `get_values` tests the truthiness of the bound
method object `self.is_connected` rather than its result, it never
returns early: after `stop_serial_read`, every stored tag still yields
its last stored (value, timestamp) rather than (absent, absent). -/
theorem C10_stop_preserves_values (s : AsyncSerialReader) (tag : List Nat) (p : Payload)
    (h : lookup_value tag s.values = some p) :
    (stop_serial_read s).values = s.values ∧
    get_values (stop_serial_read s) tag = (some p.value, p.timestamp) ∧
    get_values (stop_serial_read s) tag
      ≠ ((none : Option (List Nat)), (none : Option (List Nat))) := by
  have hv : (stop_serial_read s).values = s.values := by
    unfold stop_serial_read
    split <;> rfl
  have hg : get_values (stop_serial_read s) tag = (some p.value, p.timestamp) := by
    unfold get_values
    rw [if_neg (by simp [is_connected_attr_truthy]), hv, h]
  refine ⟨hv, hg, ?_⟩
  rw [hg]
  simp

/-- Witness for C2: a standard-mode line with only two fields is dropped
with a field-count error and an unchanged state. -/
theorem C2_witness :
    parse_line ⟨true, true, true, false, []⟩ [65, 9, 66]
      = (⟨true, true, true, false, []⟩, LineOutcome.fieldCountError) :=
  (C2_standard_field_extraction ⟨true, true, true, false, []⟩ [65, 9, 66] rfl rfl).2.2
    (by decide) (by decide)

/-- Witness for C3: a historic-mode line with a single field is dropped
with a field-count error and an unchanged state. -/
theorem C3_witness :
    parse_line ⟨false, true, true, false, []⟩ [65]
      = (⟨false, true, true, false, []⟩, LineOutcome.fieldCountError) :=
  (C3_historic_field_extraction ⟨false, true, true, false, []⟩ [65] rfl rfl).2.2.1
    (by decide) (by decide)

/-- Witness for C6: with the skip flag armed, a well-formed line is
discarded and only the flag changes. -/
theorem C6_witness :
    parse_line ⟨true, false, false, true, []⟩ [1, 2, 3]
      = (⟨true, false, false, false, []⟩, LineOutcome.skippedFirst) :=
  (C6_first_line_skipped ⟨true, false, false, true, []⟩ [1, 2, 3] rfl).1

/-- Witness for C7: after a reset, a stop, a failed open and a read
error, the session still reports not connected. -/
theorem C7_witness :
    is_connected (run_events (reset_state (init_reader true))
      [Ev.stop, Ev.openFail, Ev.readErr]) = false :=
  (C7_reset_clears_until_reconnect (init_reader true) [Ev.stop, Ev.openFail, Ev.readErr]
    (by decide)).2.2.2.2.1

/-- Witness for C5 (amended): a standard-mode line with a non-ASCII tag
byte and a matching checksum ends in an uncaught decode error. -/
theorem C5_witness :
    parse_line ⟨true, true, true, false, []⟩ [200, 9, 65, 9, 59]
      = (⟨true, true, true, false, []⟩, LineOutcome.uncaught PyErr.unicodeDecodeError) :=
  C5_amended_nonascii_is_uncaught ⟨true, true, true, false, []⟩ [200, 9, 65, 9, 59] rfl
    [200] [65] [59] none rfl rfl (Or.inl ⟨200, by decide, by decide⟩)

/-- Witness for C10: a concrete stored tag survives a stop and is still
returned by `get_values`. -/
theorem C10_witness :
    get_values (stop_serial_read ⟨true, true, true, false, [([65], ⟨[66], none⟩)]⟩) [65]
      = (some [66], none) :=
  (C10_stop_preserves_values ⟨true, true, true, false, [([65], ⟨[66], none⟩)]⟩ [65]
    ⟨[66], none⟩ rfl).2.1

end Linkytic
